import Mathlib

/-!
# Verification of the AiAssistant FreeCAD module (VibeCAD)

Shallow embedding of `src/Mod/AiAssistant`:
* `AiAssistantGui.py` — `ToolRegistry`, `LLMConnector` (prompting, tool-call
  extraction, tool dispatch, conversation history), `ChatWindow`, and the
  module-level singleton `showChatWindow`;
* `AiAssistantImport.py` — the import entry point `open(filename)`.

Python strings are modelled as Lean `String`s; Python exceptions as
`Except String` values whose payload is `str(e)`; mutable attributes as
explicit state records; the OpenAI chat-completions endpoint and FreeCAD
host side effects as function parameters.  Numeric parameter values are
carried symbolically (as the accepted literal string): no claim inspects
the numeric value itself, only whether `float(...)` / `int(...)` accepts
the literal.  Character classes (`\w`, whitespace, digits) are modelled on
ASCII; every tool name and every input exercised by the claims is ASCII.
-/

/-- Python `str.strip()`: remove leading and trailing whitespace. -/
def pyStrip (s : String) : String :=
  ((s.data.dropWhile Char.isWhitespace).reverse.dropWhile Char.isWhitespace).reverse.asString

/-- Python `str.strip(chars)`: remove leading and trailing characters
belonging to `chars`.  Used for `.strip('\'"')` in the extractor. -/
def pyStripChars (chars : List Char) (s : String) : String :=
  ((s.data.dropWhile (chars.contains ·)).reverse.dropWhile (chars.contains ·)).reverse.asString

/-- Python `repr` of a string, as it appears inside `str(ValueError)`
messages (accurate for strings without quotes, backslashes or control
characters — the only ones the development evaluates). -/
def pyRepr (s : String) : String :=
  "'" ++ s ++ "'"

/-- A run of ASCII digits in which single underscores may separate digits
(the literal grammar of Python 3 `float()` / `int()`): continuation after
the first digit. -/
def digRunCont : List Char → Bool
  | [] => true
  | ['_'] => false
  | '_' :: c :: rest => c.isDigit && digRunCont rest
  | c :: rest => c.isDigit && digRunCont rest

/-- A nonempty digit run, underscores allowed strictly between digits. -/
def digRun : List Char → Bool
  | [] => false
  | c :: rest => c.isDigit && digRunCont rest

/-- Drop one leading sign character, if present. -/
def dropSign : List Char → List Char
  | '+' :: rest => rest
  | '-' :: rest => rest
  | cs => cs

/-- Split a char list at the first occurrence of a character satisfying
`p`; returns the part before and (when found) the part strictly after. -/
def splitAtFirst (p : Char → Bool) : List Char → List Char × Option (List Char)
  | [] => ([], none)
  | c :: rest =>
    if p c then ([], some rest)
    else
      let (pre, post) := splitAtFirst p rest
      (c :: pre, post)

/-- The mantissa of a Python float literal: digits with an optional single
decimal point, at least one digit overall. -/
def floatMantissa (cs : List Char) : Bool :=
  let (intPart, fracPart) := splitAtFirst (· = '.') cs
  match fracPart with
  | none => digRun intPart
  | some frac =>
    (digRun intPart || intPart.isEmpty) &&
    (digRun frac || frac.isEmpty) &&
    !(intPart.isEmpty && frac.isEmpty)

/-- Whether Python `float(s)` accepts the string `s` (ASCII literals:
optional surrounding whitespace, optional sign, decimal mantissa with
optional exponent, or `inf` / `infinity` / `nan` in any case). -/
def floatAccepts (s : String) : Bool :=
  let body := dropSign (pyStrip s).data
  let lower := body.map Char.toLower
  if lower = "inf".data || lower = "infinity".data || lower = "nan".data then true
  else
    let (mant, expo) := splitAtFirst (fun c => c = 'e' || c = 'E') body
    match expo with
    | none => floatMantissa mant
    | some e => floatMantissa mant && digRun (dropSign e)

/-- Whether Python `int(s)` (base 10) accepts the string `s`. -/
def intAccepts (s : String) : Bool :=
  digRun (dropSign (pyStrip s).data)

/-- Python `\w` on ASCII input: letters, digits, underscore. -/
def isWordChar (c : Char) : Bool :=
  c.isAlphanum || c = '_'

/-- One match attempt of the pattern `(\w+)\(([^)]*)\)` anchored at the
head of the character list (`AiAssistantGui.py:486`): a nonempty greedy
run of word characters, a literal `(`, a greedy run of non-`)` characters,
a literal `)`.  Returns the two groups and the remainder after the match. -/
def matchCallAt (cs : List Char) : Option ((String × String) × List Char) :=
  let nameRun := cs.takeWhile isWordChar
  if nameRun.isEmpty then none
  else
    match cs.drop nameRun.length with
    | '(' :: afterParen =>
      let argRun := afterParen.takeWhile (· ≠ ')')
      match afterParen.drop argRun.length with
      | ')' :: rest => some ((nameRun.asString, argRun.asString), rest)
      | _ => none
    | _ => none

/-- `re.findall` scanning for the pattern above: try a match at every
position left to right, resuming after the end of each match.  `fuel`
bounds the recursion by the length of the text. -/
def findAllCallsAux : Nat → List Char → List (String × String)
  | 0, _ => []
  | _ + 1, [] => []
  | fuel + 1, c :: cs =>
    match matchCallAt (c :: cs) with
    | some (groups, rest) => groups :: findAllCallsAux fuel rest
    | none => findAllCallsAux fuel cs

/-- `re.findall(r'(\w+)\(([^)]*)\)', text)`. -/
def findAllCalls (text : String) : List (String × String) :=
  findAllCallsAux text.data.length text.data

/-- `shlex.split(s, posix=False, comments=False)` (whitespace-split mode,
no comment characters): tokens are separated by whitespace; a quote
character opens a quoted span, kept verbatim in the token including both
quotes; end of input inside a quoted span raises `ValueError` ("No closing
quotation").  Non-posix mode does not process escape characters. -/
def shlexSplitNP (cs : List Char) (current : List Char) (quote : Option Char)
    (acc : List String) : Except String (List String) :=
  match cs with
  | [] =>
    match quote with
    | some _ => .error "No closing quotation"
    | none =>
      if current.isEmpty then .ok acc.reverse
      else .ok (current.reverse.asString :: acc).reverse
  | c :: rest =>
    match quote with
    | some q =>
      if c = q then shlexSplitNP rest (c :: current) none acc
      else shlexSplitNP rest (c :: current) (some q) acc
    | none =>
      if c.isWhitespace then
        if current.isEmpty then shlexSplitNP rest [] none acc
        else shlexSplitNP rest [] none (current.reverse.asString :: acc)
      else if c = Char.ofNat 39 || c = '"' then
        shlexSplitNP rest (c :: current) (some c) acc
      else
        shlexSplitNP rest (c :: current) none acc

/-- `shlex.split(params_str, posix=False, comments=False)`. -/
def shlexSplit (s : String) : Except String (List String) :=
  shlexSplitNP s.data [] none []

/-- One entry of a tool's parameter schema (`register_tool`'s `parameters`
list: name, type, description). -/
structure ParamSpec where
  name : String
  type : String
  description : String
deriving Repr, DecidableEq

/-- The parameter schemas of `ToolRegistry.register_default_tools`, in
registration order (`AiAssistantGui.py:76-175`). -/
def defaultToolParams : List (String × List ParamSpec) :=
  [ ("create_document",
      [⟨"name", "string", "Name of the new document"⟩]),
    ("create_box",
      [⟨"length", "float", "Length of the box"⟩,
       ⟨"width", "float", "Width of the box"⟩,
       ⟨"height", "float", "Height of the box"⟩]),
    ("create_cylinder",
      [⟨"radius", "float", "Radius of the cylinder"⟩,
       ⟨"height", "float", "Height of the cylinder"⟩]),
    ("create_sphere",
      [⟨"radius", "float", "Radius of the sphere"⟩]),
    ("move_object",
      [⟨"object_name", "string", "Name of the object to move"⟩,
       ⟨"x", "float", "X component of displacement vector"⟩,
       ⟨"y", "float", "Y component of displacement vector"⟩,
       ⟨"z", "float", "Z component of displacement vector"⟩]),
    ("rotate_object",
      [⟨"object_name", "string", "Name of the object to rotate"⟩,
       ⟨"x_angle", "float", "Rotation angle around X axis (degrees)"⟩,
       ⟨"y_angle", "float", "Rotation angle around Y axis (degrees)"⟩,
       ⟨"z_angle", "float", "Rotation angle around Z axis (degrees)"⟩]),
    ("boolean_union",
      [⟨"object1_name", "string", "Name of the first object"⟩,
       ⟨"object2_name", "string", "Name of the second object"⟩,
       ⟨"result_name", "string", "Name of the resulting object"⟩]),
    ("boolean_cut",
      [⟨"base_name", "string", "Name of the base object"⟩,
       ⟨"tool_name", "string", "Name of the tool object to cut with"⟩,
       ⟨"result_name", "string", "Name of the resulting object"⟩]),
    ("list_objects", []),
    ("get_object_info",
      [⟨"object_name", "string", "Name of the object"⟩]) ]

/-- `ToolRegistry.get_tool(name)`: dictionary lookup, `None` when absent.
The bound functions act on the FreeCAD host and are supplied separately
(as a `FnEnv`); the registry contributes the parameter schema. -/
def getTool (name : String) : Option (List ParamSpec) :=
  (defaultToolParams.find? (fun t => t.1 = name)).map (·.2)

/-- A tool call as produced by `_extract_tool_calls`: tool name and
parameter strings. -/
structure ToolCall where
  name : String
  parameters : List String
deriving Repr, DecidableEq

/-- Parameter-string splitting inside `_extract_tool_calls`
(`AiAssistantGui.py:497-505`): nothing when the argument text strips to
empty; otherwise `shlex.split(params_str, posix=False, comments=False)`,
falling back to `params_str.split(',')` when shlex raises; each token is
then `.strip().strip('\'"')`-ed. -/
def parseCallParams (paramsStr : String) : List String :=
  if pyStrip paramsStr = "" then []
  else
    match shlexSplit paramsStr with
    | .ok toks => toks.map (fun p => pyStripChars [Char.ofNat 39, '"'] (pyStrip p))
    | .error _ =>
      (paramsStr.splitOn ",").map (fun p => pyStripChars [Char.ofNat 39, '"'] (pyStrip p))

/-- `LLMConnector._extract_tool_calls(text)`: every regex match whose name
is a registered tool becomes a `ToolCall`; matches with unregistered names
are dropped. -/
def extractToolCalls (text : String) : List ToolCall :=
  (findAllCalls text).filterMap (fun m =>
    if (getTool m.1).isSome then some ⟨m.1, parseCallParams m.2⟩ else none)

/-- A converted Python parameter value as passed to a bound tool function.
Numeric values are carried as their (accepted) literal text: no code path
modelled here inspects the numeric magnitude. -/
inductive PyVal where
  | str (s : String)
  | float (lit : String)
  | int (lit : String)
deriving Repr, DecidableEq

/-- The environment of bound tool functions (`tool["function"]`): maps the
tool name and the converted argument list to the returned string, or to
`str(e)` when the Python callable raises (wrong arity, FreeCAD failure). -/
def FnEnv : Type :=
  String → List PyVal → Except String String

/-- One type conversion of `_execute_tool_call`
(`AiAssistantGui.py:533-539`): `float(param)` for `"float"`, `int(param)`
for `"int"`, the string itself otherwise.  A failed conversion raises
`ValueError` with the message `str(e)` produced here. -/
def convertOne (spec : ParamSpec) (param : String) : Except String PyVal :=
  if spec.type = "float" then
    if floatAccepts param then .ok (.float param)
    else .error ("could not convert string to float: " ++ pyRepr param)
  else if spec.type = "int" then
    if intAccepts param then .ok (.int param)
    else .error ("invalid literal for int() with base 10: " ++ pyRepr param)
  else .ok (.str param)

/-- The conversion loop of `_execute_tool_call`: iterate over the supplied
parameters, `break` as soon as the index reaches the length of the
declared schema (extras are ignored), convert each remaining parameter by
its positional schema entry. -/
def convertParams (expected : List ParamSpec) (params : List String) :
    Except String (List PyVal) :=
  ((params.take expected.length).zip expected).mapM
    (fun pe => convertOne pe.2 pe.1)

/-- The `try` body of `_execute_tool_call` (`AiAssistantGui.py:523-543`):
convert the parameters, call the bound function, format the success
message; any `ValueError` from conversion or exception from the callable
propagates. -/
def executeToolCallTry (fenv : FnEnv) (name : String) (expected : List ParamSpec)
    (params : List String) : Except String String :=
  match convertParams expected params with
  | .error e => .error e
  | .ok converted =>
    match fenv name converted with
    | .error e => .error e
    | .ok result => .ok ("Tool '" ++ name ++ "' executed: " ++ result)

/-- `LLMConnector._execute_tool_call(call)`: registry lookup, then the
`try` body above; an escaping exception is caught, logged to the FreeCAD
console (second component) and rendered as an error string.  The first
component is the returned string. -/
def executeToolCall (fenv : FnEnv) (call : ToolCall) : String × List String :=
  match getTool call.name with
  | none => ("Error: Tool '" ++ call.name ++ "' not found", [])
  | some expected =>
    match executeToolCallTry fenv call.name expected call.parameters with
    | .ok s => (s, [])
    | .error e =>
      ("Error executing tool '" ++ call.name ++ "': " ++ e,
       ["Error executing tool '" ++ call.name ++ "': " ++ e])

/-- The per-tool description of `ToolRegistry.register_default_tools`
(second argument of each `register_tool` call), keyed by tool name. -/
def defaultToolDescription (name : String) : String :=
  if name = "create_document" then "Creates a new FreeCAD document"
  else if name = "create_box" then "Creates a box with the specified dimensions"
  else if name = "create_cylinder" then "Creates a cylinder with the specified dimensions"
  else if name = "create_sphere" then "Creates a sphere with the specified radius"
  else if name = "move_object" then "Moves an object by the specified vector"
  else if name = "rotate_object" then "Rotates an object by the specified angles (in degrees)"
  else if name = "boolean_union" then "Performs a boolean union operation between two objects"
  else if name = "boolean_cut" then "Performs a boolean cut operation between two objects"
  else if name = "list_objects" then "Lists all objects in the active document"
  else if name = "get_object_info" then "Gets information about a specific object"
  else ""

/-- `ToolRegistry.get_tool_descriptions()` (`AiAssistantGui.py:61-74`). -/
def getToolDescriptions : String :=
  String.intercalate "\n\n" (defaultToolParams.map (fun t =>
    let paramDesc :=
      if t.2.isEmpty then ""
      else "\nParameters:\n" ++ String.intercalate "\n"
        (t.2.map (fun p => p.name ++ " (" ++ p.type ++ "): " ++ p.description))
    "Tool: " ++ t.1 ++ "\nDescription: " ++ defaultToolDescription t.1 ++ paramDesc))

/-- `LLMConnector._generate_system_prompt()` (`AiAssistantGui.py:364-384`). -/
def systemPrompt : String :=
  "You are an AI assistant for CAD design using FreeCAD. \n" ++
  "You can help users create and modify 3D models by understanding their requirements and using the available CAD tools.\n\n" ++
  "You have access to the following tools that allow you to interact with FreeCAD:\n\n" ++
  getToolDescriptions ++
  "\n\nWhen a user asks you to perform an action, you should:\n" ++
  "1. Understand the user's intent\n" ++
  "2. Choose the appropriate tool(s) for the task\n" ++
  "3. Call the tool(s) with the right parameters\n" ++
  "4. Explain what you've done in clear language\n" ++
  "5. Suggest next steps if applicable\n\n" ++
  "Be precise with measurements and follow the user's specifications exactly.\n" ++
  "Always respond in a helpful, informative manner.\n"

/-- One conversation entry: a role/content pair, as built by
`LLMConnector.add_message`. -/
structure Msg where
  role : String
  content : String
deriving Repr, DecidableEq

/-- `LLMConnector.add_message(role, content)`
(`AiAssistantGui.py:398-400`): append one role/content pair. -/
def addMessage (hist : List Msg) (role content : String) : List Msg :=
  hist ++ [⟨role, content⟩]

/-- The mutable attributes of `LLMConnector` that `send_message` reads or
writes (`model_name` is read only through the API call, which is
abstracted; `client` is write-only). -/
structure LLMState where
  api_key : Option String
  conversation_history : List Msg

/-- The outside world as seen by `send_message`: the `OPENAI_API_KEY`
environment variable (`""` when unset), availability of the `openai`
package, the bound tool functions, and the chat-completions endpoint
(`client.chat.completions.create`), which maps the message list to the
reply text `response.choices[0].message.content` or raises. -/
structure LLMEnv where
  env_api_key : String
  openai_installed : Bool
  fenv : FnEnv
  api : List Msg → Except String String

/-- Python truthiness of `self.api_key` at `if not self.api_key`
(`AiAssistantGui.py:409`): falsy when `None` or the empty string. -/
def keyFalsy : Option String → Bool
  | none => true
  | some s => s.isEmpty

/-- Result of the `try` block of `send_message`: the value it returns or
the `str(e)` of an exception escaping it, together with the mutated
history and api_key, the number of chat-completions requests issued, and
console error lines from tool execution. -/
structure TryOutcome where
  outcome : Except String String
  history : List Msg
  api_key : Option String
  requests : Nat
  console : List String

/-- The `try` block of `LLMConnector.send_message`
(`AiAssistantGui.py:407-472`), entered after the user message has already
been appended (`hist1`).  API-key fallback to the environment, the
`openai` import guard, the first request, tool extraction and execution,
and the optional follow-up request. -/
def sendMessageTry (env : LLMEnv) (apiKey0 : Option String) (hist1 : List Msg) :
    TryOutcome :=
  let key : Option String :=
    if keyFalsy apiKey0 then
      (if env.env_api_key = "" then apiKey0 else some env.env_api_key)
    else apiKey0
  if keyFalsy apiKey0 ∧ env.env_api_key = "" then
    ⟨.ok "API key for the AI service is not set. Please set it in the settings.",
     hist1, key, 0, []⟩
  else if ¬env.openai_installed then
    ⟨.ok "OpenAI Python package is not installed. Please install it with: pip install openai",
     hist1, key, 0, []⟩
  else
    let messages := ⟨"system", systemPrompt⟩ :: hist1
    match env.api messages with
    | .error e => ⟨.error e, hist1, key, 1, []⟩
    | .ok reply =>
      let hist2 := addMessage hist1 "assistant" reply
      let calls := extractToolCalls reply
      if calls.isEmpty then ⟨.ok reply, hist2, key, 1, []⟩
      else
        let results := calls.map (fun c => executeToolCall env.fenv c)
        let joined := String.intercalate "\n" (results.map (·.1))
        let hist3 := addMessage hist2 "function" joined
        let consoles := (results.map (·.2)).flatten
        match env.api (messages ++ [⟨"assistant", reply⟩, ⟨"function", joined⟩]) with
        | .error e => ⟨.error e, hist3, key, 2, consoles⟩
        | .ok followup =>
          ⟨.ok (reply ++ "\n\n" ++ joined ++ "\n\n" ++ followup),
           addMessage hist3 "assistant" followup, key, 2, consoles⟩

/-- What `send_message` leaves behind: the returned string, the mutated
attributes, the number of requests issued, and console error lines. -/
structure SendResult where
  ret : String
  history : List Msg
  api_key : Option String
  requests : Nat
  console : List String

/-- `LLMConnector.send_message(message)` (`AiAssistantGui.py:402-478`):
append the user message to the history, run the `try` block, and on an
escaping exception log to the console (modelled without the appended
traceback text) and return `"Error: " + str(e)`. -/
def sendMessage (env : LLMEnv) (st : LLMState) (message : String) : SendResult :=
  let hist1 := addMessage st.conversation_history "user" message
  let t := sendMessageTry env st.api_key hist1
  match t.outcome with
  | .ok ret => ⟨ret, t.history, t.api_key, t.requests, t.console⟩
  | .error e =>
    ⟨"Error: " ++ e, t.history, t.api_key, t.requests,
     t.console ++ ["Error communicating with AI service: " ++ e]⟩

/-- JSON values as produced by `json.load`. -/
inductive Json where
  | obj (fields : List (String × Json))
  | arr (items : List Json)
  | str (s : String)
  | num (n : Int)
  | bool (b : Bool)
  | null

/-- Python `'key' in data` for a `json.load` result (`key` nonempty at
both use sites): key membership for an object, element equality for an
array, substring test for a string, `TypeError` for the other kinds (the
exact message varies with the kind and is never inspected). -/
def jsonContains (data : Json) (key : String) : Except String Bool :=
  match data with
  | .obj fields => .ok (fields.any (fun f => f.1 = key))
  | .arr items =>
    .ok (items.any (fun item => match item with | .str s => s = key | _ => false))
  | .str s => .ok (2 ≤ (s.splitOn key).length)
  | _ => .error "argument of type is not iterable"

/-- Declared arity of the module-level `open` in `AiAssistantImport.py`
(a single parameter, `filename`). -/
def importOpenArity : Nat := 1

/-- Positional arguments at the call `open(filename, 'r')` inside its own
body (`AiAssistantImport.py:13`).  The module-level `def open` shadows the
builtin `open` in the module's global namespace, so that call dispatches
to the module function itself, not to the builtin. -/
def importOpenCallArgs : Nat := 2

/-- `AiAssistantImport.open(filename)` (`AiAssistantImport.py:9-48`).
`readJson` stands for what the builtin `open` plus `json.load` would
produce for the file (`.error` = IOError / JSONDecodeError, as `str(e)`).
Returns the Python return value and the console lines printed.  The
GUI-up branches only show the chat window and are elided (they do not
affect the return value). -/
def importOpen (readJson : String → Except String Json) (filename : String) :
    Bool × List String :=
  let readResult : Except String Json :=
    if importOpenCallArgs = importOpenArity then
      readJson filename
    else
      .error "open() takes 1 positional argument but 2 were given"
  match readResult with
  | .error e =>
    (false, ["Error opening AI Assistant file " ++ filename ++ ": " ++ e ++ "\n"])
  | .ok data =>
    match jsonContains data "conversation" with
    | .error e =>
      (false, ["Error opening AI Assistant file " ++ filename ++ ": " ++ e ++ "\n"])
    | .ok true =>
      (true, ["Loaded AI Assistant conversation from " ++ filename ++ "\n"])
    | .ok false =>
      match jsonContains data "settings" with
      | .error e =>
        (false, ["Error opening AI Assistant file " ++ filename ++ ": " ++ e ++ "\n"])
      | .ok true =>
        (true, ["Loaded AI Assistant settings from " ++ filename ++ "\n"])
      | .ok false =>
        (false, ["Unknown AI Assistant file format in " ++ filename ++ "\n"])

/-- The module-level GUI state relevant to `showChatWindow`: the global
`_chat_window_instance` (instances identified by construction index), the
number of `ChatWindow` constructions so far, and visibility. -/
structure GuiState where
  chat_window_instance : Option Nat
  constructions : Nat
  visible : Bool
deriving Repr, DecidableEq

/-- State at module load: `_chat_window_instance = None`
(`AiAssistantGui.py:31`), no construction yet. -/
def initialGuiState : GuiState :=
  ⟨none, 0, false⟩

/-- `showChatWindow()` (`AiAssistantGui.py:810-825`): construct a
`ChatWindow` only when the global is `None`; always make the instance
visible, raise it, and return it. -/
def showChatWindow (s : GuiState) : Nat × GuiState :=
  match s.chat_window_instance with
  | none => (s.constructions, ⟨some s.constructions, s.constructions + 1, true⟩)
  | some id => (id, { s with visible := true })

/-- A sequence of `n` successive `showChatWindow()` calls: the returned
instances and the final state. -/
def runShowChatWindow : Nat → GuiState → List Nat × GuiState
  | 0, s => ([], s)
  | n + 1, s =>
    let (id, s1) := showChatWindow s
    let (ids, s2) := runShowChatWindow n s1
    (id :: ids, s2)

/-- One widget in the chat panel (a `ChatMessageWidget`: sender type and
text), in layout order. -/
structure PanelMsg where
  sender : String
  text : String
deriving Repr, DecidableEq

/-- `ChatWindow.add_message(text, sender_type)`
(`AiAssistantGui.py:773-780`): wrap the text in a `ChatMessageWidget` and
append it to the chat layout. -/
def chatAddMessage (panel : List PanelMsg) (text sender : String) : List PanelMsg :=
  panel ++ [⟨sender, text⟩]

/-- The GUI-thread part of `ChatWindow.on_send_message`
(`AiAssistantGui.py:729-766`): strip the input; on empty input return
without doing anything; otherwise append the user message and a
"Thinking..." indicator widget and spawn one daemon thread running
`process_message`.  Returns the updated panel, the number of threads
spawned, and the method name the background thread will pass to
`QMetaObject.invokeMethod(self, ·, QueuedConnection)` when the LLM call
completes. -/
def onSendMessage (input : String) (panel : List PanelMsg) :
    List PanelMsg × Nat × Option String :=
  let message := pyStrip input
  if message = "" then (panel, 0, none)
  else
    let p1 := chatAddMessage panel message "user"
    let p2 := p1 ++ [⟨"assistant", "Thinking..."⟩]
    (p2, 1, some "update_ui")

/-- Qt slot dispatch by name on a `ChatWindow`: `invokeMethod` looks the
name up in the class's meta-object, and the only Slot-decorated method
named `update_ui` is `ChatWindow.update_ui` (`AiAssistantGui.py:768-771`),
whose body is `pass` — it leaves the panel unchanged. -/
def invokeChatWindowSlot (name : String) (panel : List PanelMsg) : List PanelMsg :=
  if name = "update_ui" then panel
  else panel

/-- The local function `update_ui` defined inside `process_message`
(`AiAssistantGui.py:751-757`): remove the thinking widget (the one
appended last) and append the assistant response.  The source defines this
closure but nothing ever calls it; it is embedded only to state what the
queued callback was evidently meant to do. -/
def updateUiClosure (panel : List PanelMsg) (response : String) : List PanelMsg :=
  panel.dropLast ++ [⟨"assistant", response⟩]

/-- One full round trip of `on_send_message` as the user sees it: the
GUI-thread part, the background `send_message` call producing `response`,
and the queued callback dispatched by name on the GUI thread.  Returns the
final panel and the number of threads spawned. -/
def chatRoundTrip (input response : String) (panel : List PanelMsg) :
    List PanelMsg × Nat :=
  let (p2, threads, slot) := onSendMessage input panel
  match slot with
  | none => (p2, threads)
  | some nm => (invokeChatWindowSlot nm p2, threads)

/-- C1: For the input text "create_box(10, 20, 30)" the extractor returns
exactly one call named `create_box` with three parameter strings — but the
non-posix `shlex.split` tokenizes on whitespace, so the first two
parameter strings keep their trailing commas ("10," and "20,"), and the
dispatcher's `float(...)` conversion raises `ValueError` on "10,": the
claimed conversion of the three parameters to floats fails and the bound
function is never invoked (the error string is returned for any bound
function environment). -/
theorem c1_create_box_params_keep_commas_and_float_fails :
    extractToolCalls "create_box(10, 20, 30)" =
      [⟨"create_box", ["10,", "20,", "30"]⟩] ∧
    ∀ fenv : FnEnv,
      executeToolCall fenv ⟨"create_box", ["10,", "20,", "30"]⟩ =
        ("Error executing tool 'create_box': could not convert string to float: '10,'",
         ["Error executing tool 'create_box': could not convert string to float: '10,'"]) := by
  refine ⟨by decide, fun fenv => rfl⟩

/-- C2: the import entry point never returns `True`: inside
`AiAssistantImport.open` the name `open` resolves to the module-level
function itself (which shadows the builtin and takes one positional
argument), so `open(filename, 'r')` raises `TypeError`, the broad `except`
logs it, and `False` is returned — even for a valid JSON file whose top
level has the key `conversation`. -/
theorem c2_import_open_returns_false_for_conversation_file :
    importOpen (fun _ => .ok (Json.obj [("conversation", Json.arr [])])) "conv.json" =
      (false,
       ["Error opening AI Assistant file conv.json: open() takes 1 positional argument but 2 were given\n"]) ∧
    ∀ (readJson : String → Except String Json) (filename : String),
      (importOpen readJson filename).1 = false := by
  exact ⟨rfl, fun readJson filename => rfl⟩

/-- C7: when the user sends "hi", one background thread is spawned and the
queued callback is dispatched by name to `ChatWindow.update_ui`, whose
body is `pass`: the final panel still contains the "Thinking..." indicator
and never shows the assistant response "resp" — it differs from what the
(dead) local closure `update_ui` would have produced. -/
theorem c7_queued_callback_leaves_thinking_indicator :
    chatRoundTrip "hi" "resp" [] =
      ([⟨"user", "hi"⟩, ⟨"assistant", "Thinking..."⟩], 1) ∧
    chatRoundTrip "hi" "resp" [] ≠
      (updateUiClosure [⟨"user", "hi"⟩, ⟨"assistant", "Thinking..."⟩] "resp", 1) := by
  constructor
  · decide
  · decide

/-- Helper: from the steady state (instance constructed, one construction,
visible) further `showChatWindow` calls return instance 0 and change
nothing. -/
theorem runShowChatWindow_steady (k : Nat) :
    runShowChatWindow k ⟨some 0, 1, true⟩ = (List.replicate k 0, ⟨some 0, 1, true⟩) := by
  induction k with
  | zero => rfl
  | succ n ih =>
    simp [runShowChatWindow, showChatWindow, ih, List.replicate]

/-- C6: the chat window is a global singleton: starting from module load,
any sequence of `n` calls to `showChatWindow` constructs a `ChatWindow` at
most once (exactly on the first call), every call returns that same
instance (index 0), and the instance is visible whenever at least one call
happened. -/
theorem c6_show_chat_window_singleton (n : Nat) :
    (runShowChatWindow n initialGuiState).1 = List.replicate n 0 ∧
    (runShowChatWindow n initialGuiState).2.constructions = min n 1 ∧
    (runShowChatWindow n initialGuiState).2.visible = decide (0 < n) := by
  cases n with
  | zero => exact ⟨rfl, rfl, rfl⟩
  | succ m =>
    have h : runShowChatWindow (m + 1) initialGuiState =
        (0 :: List.replicate m 0, ⟨some 0, 1, true⟩) := by
      simp [runShowChatWindow, initialGuiState, showChatWindow, runShowChatWindow_steady]
    rw [h]
    refine ⟨by simp [List.replicate], by simp [Nat.min_def], by simp⟩

/-- C8: every tool call returned by `_extract_tool_calls` names a
registered tool: regex matches whose name is not a registry key are
dropped. -/
theorem c8_extracted_calls_name_registered_tools
    (text : String) (c : ToolCall) (hc : c ∈ extractToolCalls text) :
    (getTool c.name).isSome = true := by
  unfold extractToolCalls at hc
  rcases List.mem_filterMap.mp hc with ⟨m, _, hm⟩
  by_cases h : (getTool m.1).isSome
  · rw [if_pos h] at hm
    cases hm
    exact h
  · rw [if_neg h] at hm
    cases hm

/-- C8 witness: the call extracted from "create_sphere(5)" names a
registered tool. -/
theorem c8_witness :
    (getTool (ToolCall.mk "create_sphere" ["5"]).name).isSome = true :=
  c8_extracted_calls_name_registered_tools "create_sphere(5)"
    (ToolCall.mk "create_sphere" ["5"]) (by decide)

/-- The declared arity of a registered tool (0 for unregistered names). -/
def toolArity (name : String) : Nat :=
  ((getTool name).getD []).length

/-- C9: extra parameters beyond a tool's declared schema are silently
ignored by `_execute_tool_call`: the call behaves exactly like the call
truncated to the declared arity (so only the first `n` parameters are
converted and passed, and no arity error is reported for the extras). -/
theorem c9_extra_parameters_ignored (fenv : FnEnv) (name : String)
    (params : List String) :
    executeToolCall fenv ⟨name, params⟩ =
      executeToolCall fenv ⟨name, params.take (toolArity name)⟩ := by
  unfold executeToolCall toolArity
  cases h : getTool name with
  | none => simp [h]
  | some expected =>
    simp only [h, Option.getD_some]
    have : params.take expected.length =
        (params.take expected.length).take expected.length := by
      rw [List.take_take, Nat.min_self]
    unfold executeToolCallTry convertParams
    rw [← this]

/-- Helper: every path through the `try` block of `send_message` only ever
appends to the history it was given. -/
theorem sendMessageTry_history_extends (env : LLMEnv) (key0 : Option String)
    (hist1 : List Msg) :
    ∃ suffix, (sendMessageTry env key0 hist1).history = hist1 ++ suffix := by
  simp only [sendMessageTry]
  split
  · exact ⟨[], by simp⟩
  · split
    · exact ⟨[], by simp⟩
    · split
      · exact ⟨[], by simp⟩
      · split
        · exact ⟨_, by simp only [addMessage, List.append_assoc]; rfl⟩
        · split
          · exact ⟨_, by simp only [addMessage, List.append_assoc]; rfl⟩
          · exact ⟨_, by simp only [addMessage, List.append_assoc]; rfl⟩

/-- Helper: `send_message` returns the history produced by its `try`
block, whichever way the `try` block ends. -/
theorem sendMessage_history_eq (env : LLMEnv) (st : LLMState) (message : String) :
    (sendMessage env st message).history =
      (sendMessageTry env st.api_key
        (addMessage st.conversation_history "user" message)).history := by
  simp only [sendMessage]
  split <;> rfl

/-- Helper: likewise for the number of chat-completions requests issued. -/
theorem sendMessage_requests_eq (env : LLMEnv) (st : LLMState) (message : String) :
    (sendMessage env st message).requests =
      (sendMessageTry env st.api_key
        (addMessage st.conversation_history "user" message)).requests := by
  simp only [sendMessage]
  split <;> rfl

/-- C5: the conversation history is append-only: `add_message` appends one
role/content pair at the end, and `send_message` (on every path, error
paths included) extends the history by a suffix, never rewriting or
removing existing entries. -/
theorem c5_history_append_only (env : LLMEnv) (st : LLMState)
    (message role content : String) :
    addMessage st.conversation_history role content =
      st.conversation_history ++ [⟨role, content⟩] ∧
    ∃ suffix, (sendMessage env st message).history =
      st.conversation_history ++ suffix := by
  refine ⟨rfl, ?_⟩
  obtain ⟨suf, hsuf⟩ := sendMessageTry_history_extends env st.api_key
    (addMessage st.conversation_history "user" message)
  refine ⟨⟨"user", message⟩ :: suf, ?_⟩
  rw [sendMessage_history_eq, hsuf]
  simp [addMessage]

/-- Helper: request count of the `try` block when it reaches the API (key
available, `openai` importable): one request, plus one more exactly when
the first reply contains a recognized tool call. -/
theorem sendMessageTry_requests_spec (env : LLMEnv) (key0 : Option String)
    (hist1 : List Msg)
    (hkey : ¬(keyFalsy key0 = true ∧ env.env_api_key = ""))
    (hopenai : env.openai_installed = true) :
    ((sendMessageTry env key0 hist1).requests = 1 ∨
      (sendMessageTry env key0 hist1).requests = 2) ∧
    ∀ reply, env.api (⟨"system", systemPrompt⟩ :: hist1) = .ok reply →
      (sendMessageTry env key0 hist1).requests =
        if extractToolCalls reply = [] then 1 else 2 := by
  simp only [sendMessageTry]
  rw [if_neg hkey, if_neg (by simp [hopenai])]
  cases hapi : env.api (⟨"system", systemPrompt⟩ :: hist1) with
  | error e =>
    exact ⟨Or.inl rfl, fun reply h => Except.noConfusion h⟩
  | ok reply0 =>
    dsimp only
    by_cases hcalls : (extractToolCalls reply0).isEmpty = true
    · rw [if_pos hcalls]
      refine ⟨Or.inl rfl, fun reply h => ?_⟩
      injection h with h
      subst h
      rw [if_pos (List.isEmpty_iff.mp hcalls)]
    · rw [if_neg hcalls]
      have h2 : ¬extractToolCalls reply0 = [] := fun h => hcalls (List.isEmpty_iff.mpr h)
      refine ⟨?_, ?_⟩
      · refine Or.inr ?_
        split <;> rfl
      · intro reply h
        injection h with h
        subst h
        rw [if_neg h2]
        split <;> rfl

/-- C3: every invocation of `send_message` that reaches the API issues
exactly one chat-completions request when the reply contains no recognized
tool call, exactly two (the follow-up incorporating tool results) when it
contains at least one, and never more than two. -/
theorem c3_one_or_two_requests (env : LLMEnv) (st : LLMState) (message : String)
    (hkey : ¬(keyFalsy st.api_key = true ∧ env.env_api_key = ""))
    (hopenai : env.openai_installed = true) :
    ((sendMessage env st message).requests = 1 ∨
      (sendMessage env st message).requests = 2) ∧
    ∀ reply,
      env.api (⟨"system", systemPrompt⟩ ::
        addMessage st.conversation_history "user" message) = .ok reply →
      (sendMessage env st message).requests =
        if extractToolCalls reply = [] then 1 else 2 := by
  rw [sendMessage_requests_eq]
  exact sendMessageTry_requests_spec env st.api_key _ hkey hopenai

/-- A concrete environment for the C3 witness: API key set, `openai`
available, the API replying with plain text containing no tool call. -/
def envC3 : LLMEnv :=
  ⟨"", true, fun _ _ => .ok "done", fun _ => .ok "All set."⟩

/-- C3 witness: in `envC3` with an API key in state, sending "hi" issues
one or two requests. -/
theorem c3_witness :
    envC3.openai_installed = true ∧
    ((sendMessage envC3 ⟨some "k", []⟩ "hi").requests = 1 ∨
      (sendMessage envC3 ⟨some "k", []⟩ "hi").requests = 2) :=
  ⟨rfl, (c3_one_or_two_requests envC3 ⟨some "k", []⟩ "hi" (by decide) rfl).1⟩

/-- C4: neither `send_message` nor `_execute_tool_call` propagates an
exception: both are total and, whenever the `try` body ends in an
exception `e`, the caller receives an ordinary returned string beginning
with "Error" and the error is logged to the console. -/
theorem c4_exceptions_caught_and_surfaced (env : LLMEnv) (st : LLMState)
    (message : String) :
    (∀ e,
      (sendMessageTry env st.api_key
        (addMessage st.conversation_history "user" message)).outcome = .error e →
      (sendMessage env st message).ret = "Error: " ++ e ∧
      (∃ rest, (sendMessage env st message).ret = "Error" ++ rest) ∧
      "Error communicating with AI service: " ++ e ∈ (sendMessage env st message).console) ∧
    (∀ (fenv : FnEnv) (name : String) (expected : List ParamSpec)
        (params : List String) (e : String),
      getTool name = some expected →
      executeToolCallTry fenv name expected params = .error e →
      (executeToolCall fenv ⟨name, params⟩).1 =
        "Error executing tool '" ++ name ++ "': " ++ e ∧
      (∃ rest, (executeToolCall fenv ⟨name, params⟩).1 = "Error" ++ rest) ∧
      (executeToolCall fenv ⟨name, params⟩).2 =
        ["Error executing tool '" ++ name ++ "': " ++ e]) := by
  constructor
  · intro e h
    have hs : (sendMessage env st message).ret = "Error: " ++ e ∧
        (sendMessage env st message).console =
          (sendMessageTry env st.api_key
            (addMessage st.conversation_history "user" message)).console ++
            ["Error communicating with AI service: " ++ e] := by
      simp only [sendMessage, h]
      exact ⟨by trivial, by trivial⟩
    refine ⟨hs.1, ⟨": " ++ e, ?_⟩, ?_⟩
    · rw [hs.1]
      have hlit : ("Error" ++ ": " : String) = "Error: " := rfl
      rw [← String.append_assoc, hlit]
    · rw [hs.2]
      simp
  · intro fenv name expected params e hget htry
    simp only [executeToolCall, hget, htry]
    refine ⟨by trivial, ⟨" executing tool '" ++ name ++ "': " ++ e, ?_⟩, by trivial⟩
    have hlit : ("Error" ++ " executing tool '" : String) = "Error executing tool '" := rfl
    simp only [← String.append_assoc, hlit]

/-- A concrete environment for the C4 witness: the API raises, and the
bound tool function raises. -/
def envC4 : LLMEnv :=
  ⟨"", true, fun _ _ => .error "toolfail", fun _ => .error "boom"⟩

/-- C4 witness: the API exception "boom" comes back as the returned string
"Error: boom", and a raising tool call returns an error string rather than
propagating. -/
theorem c4_witness :
    (sendMessage envC4 ⟨some "k", []⟩ "hi").ret = "Error: boom" ∧
    (executeToolCall (fun _ _ => .error "toolfail") ⟨"create_sphere", ["5"]⟩).1 =
      "Error executing tool 'create_sphere': toolfail" := by
  refine ⟨((c4_exceptions_caught_and_surfaced envC4 ⟨some "k", []⟩ "hi").1 "boom" rfl).1, ?_⟩
  exact ((c4_exceptions_caught_and_surfaced envC4 ⟨some "k", []⟩ "hi").2
    (fun _ _ => .error "toolfail") "create_sphere"
    [⟨"radius", "float", "Radius of the sphere"⟩] ["5"] "toolfail" rfl rfl).1

/-- C10: `send_message` is not atomic on failure: the user's message is
appended to the history before any error check, so the history grows by
that entry on every path — including the missing-API-key and
missing-openai-package early returns, where it grows by exactly that
entry while an error message is returned. -/
theorem c10_user_message_appended_before_error_checks (env : LLMEnv)
    (st : LLMState) (message : String) :
    (∃ rest, (sendMessage env st message).history =
      st.conversation_history ++ ⟨"user", message⟩ :: rest) ∧
    (keyFalsy st.api_key = true → env.env_api_key = "" →
      (sendMessage env st message).history =
        st.conversation_history ++ [⟨"user", message⟩] ∧
      (sendMessage env st message).ret =
        "API key for the AI service is not set. Please set it in the settings.") ∧
    (¬(keyFalsy st.api_key = true ∧ env.env_api_key = "") →
      env.openai_installed = false →
      (sendMessage env st message).history =
        st.conversation_history ++ [⟨"user", message⟩] ∧
      (sendMessage env st message).ret =
        "OpenAI Python package is not installed. Please install it with: pip install openai") := by
  refine ⟨?_, ?_, ?_⟩
  · obtain ⟨suf, hsuf⟩ := sendMessageTry_history_extends env st.api_key
      (addMessage st.conversation_history "user" message)
    refine ⟨suf, ?_⟩
    rw [sendMessage_history_eq, hsuf]
    simp [addMessage]
  · intro h1 h2
    simp only [sendMessage, sendMessageTry]
    rw [if_pos ⟨h1, h2⟩]
    exact ⟨rfl, rfl⟩
  · intro hk hop
    simp only [sendMessage, sendMessageTry]
    rw [if_neg hk, if_pos (by simp [hop])]
    exact ⟨rfl, rfl⟩

/-- A concrete environment for the C10 witness: no API key anywhere. -/
def envC10 : LLMEnv :=
  ⟨"", true, fun _ _ => .ok "", fun _ => .ok ""⟩

/-- C10 witness: with no API key set and none in the environment, sending
"hi" returns the missing-key message, yet the history has grown by the
user entry. -/
theorem c10_witness :
    keyFalsy (none : Option String) = true ∧
    (sendMessage envC10 ⟨none, []⟩ "hi").history = [⟨"user", "hi"⟩] ∧
    (sendMessage envC10 ⟨none, []⟩ "hi").ret =
      "API key for the AI service is not set. Please set it in the settings." := by
  have h := (c10_user_message_appended_before_error_checks envC10 ⟨none, []⟩ "hi").2.1 rfl rfl
  exact ⟨rfl, by simpa using h.1, h.2⟩
